import Mathlib

/-!
Shallow embedding, over `ℚ`, of the particle simulation engine in
`src/components/SimulationCanvas.tsx` of the charflux repository.

Modelling conventions:

* JS numbers are modelled as rationals (`ℚ`); every numeric literal below is
  copied verbatim from the source (decimal literals are exact in `ℚ`).
* Irrational primitives (`Math.sqrt`, `Math.cos`, `Math.sin`, `Math.atan2`) are
  modelled by an oracle record `MathOracle` of unspecified rational functions.
  Angles are measured in turns: `cos2pi t` models `Math.cos(t * Math.PI * 2)`,
  so the source expression `Math.cos(norm * Math.PI * 2)` becomes
  `O.cos2pi norm`, `angle + (Math.PI / 2) * rotation` becomes
  `angle + 0.25 * rotation`, and `Math.cos((currentTime / 5000) * Math.PI * 2)`
  becomes `O.cos2pi (t / 5000)`.
* `Math.random()` draws are modelled by a stream `rng : ℕ → ℚ` of values in
  `[0, 1)`; each syntactic call site reads a distinct stream position.
* Every division written with `/` in the source goes through `checkedDiv`,
  which fails (returns `none`) on a zero divisor, so the per-tick functions
  live in `Option`: a `none` result would mean the source performed a
  division by zero.
-/

namespace Charflux

/-- Boundary policy selector, modelling `CONFIG.BOUNDARY_MODE : 'wrap' | 'bounce'`. -/
inductive BoundaryMode
  | wrap
  | bounce
deriving DecidableEq

/-! Numeric constants of the fluid (default) mode, from `CONFIG` (source lines 9-20). -/
namespace CONFIG

def MAX_VELOCITY : ℚ := 3

def FRICTION : ℚ := 0.98

def INTERACTION_RADIUS : ℚ := 100

def NEIGHBORS_TO_CHECK : ℕ := 5

def ATTRACTION_STRENGTH : ℚ := 0.01

def REPULSION_STRENGTH : ℚ := 0.02

def BOUNDARY_MODE : BoundaryMode := BoundaryMode.wrap

end CONFIG

/-! Numeric constants of the gravity mode, from `GRAVITY_CONFIG` (source lines 22-28).
Note: this configuration has no `MAX_VELOCITY` entry. -/
namespace GRAVITY_CONFIG

def GRAVITY : ℚ := 0.3

def BOUNCE_DAMPING : ℚ := 0.7

def GROUND_FRICTION : ℚ := 0.99

def AIR_RESISTANCE : ℚ := 0.995

def FLOOR_OFFSET : ℚ := 10

end GRAVITY_CONFIG

/-! Numeric constants of the chaos mode, from `CHAOS_CONFIG` (source lines 30-37). -/
namespace CHAOS_CONFIG

def RANDOM_FORCE_STRENGTH : ℚ := 0.15

def CENTER_ATTRACTION : ℚ := 0.005

def WALL_BOUNCE_ENERGY : ℚ := 1.05

def FRICTION : ℚ := 0.996

def MAX_VELOCITY : ℚ := 5

def TURBULENCE_FREQUENCY : ℚ := 0.3

end CHAOS_CONFIG

/-! Numeric constants of the weather mode, from `WEATHER_CONFIG` (source lines 39-47). -/
namespace WEATHER_CONFIG

def NUM_VORTICES : ℕ := 3

def VORTEX_STRENGTH : ℚ := 0.08

def VORTEX_RADIUS : ℚ := 150

def VORTEX_MOVE_SPEED : ℚ := 0.5

def WIND_STRENGTH : ℚ := 0.02

def FRICTION : ℚ := 0.99

def MAX_VELOCITY : ℚ := 4

end WEATHER_CONFIG

/-! Numeric constants of the swarm mode, from `SWARM_CONFIG` (source lines 49-60). -/
namespace SWARM_CONFIG

def SEPARATION_RADIUS : ℚ := 30

def ALIGNMENT_RADIUS : ℚ := 60

def COHESION_RADIUS : ℚ := 80

def SEPARATION_STRENGTH : ℚ := 0.05

def ALIGNMENT_STRENGTH : ℚ := 0.03

def COHESION_STRENGTH : ℚ := 0.01

def RANDOM_NOISE : ℚ := 0.05

def FRICTION : ℚ := 0.995

def MAX_VELOCITY : ℚ := 3.5

def NEIGHBORS_TO_CHECK : ℕ := 8

end SWARM_CONFIG

/-- A particle, from `interface Particle` (source lines 62-72). -/
structure Particle where
  ch : Char
  code : ℤ
  x : ℚ
  y : ℚ
  vx : ℚ
  vy : ℚ
  norm : ℚ
  mass : ℚ
  hue : ℚ
deriving DecidableEq

/-- A vortex of the weather mode, from `interface Vortex` (source lines 155-162). -/
structure Vortex where
  x : ℚ
  y : ℚ
  vx : ℚ
  vy : ℚ
  strength : ℚ
  rotation : ℚ
deriving DecidableEq

/-- The five simulation modes, from `type SimulationMode` (source line 74). -/
inductive SimulationMode
  | fluid
  | gravity
  | chaos
  | weather
  | swarm
deriving DecidableEq

/-- The mutable state owned by the engine: the particle array and (for weather)
the vortex array (source lines 89, 164). -/
structure EngineState where
  particles : List Particle
  vortices : List Vortex
deriving DecidableEq

/-- Oracle for the irrational float primitives used by the source. `sqrtq`
models `Math.sqrt`; `cos2pi t` / `sin2pi t` model `Math.cos` / `Math.sin`
at the angle `t * Math.PI * 2` (argument in turns); `atan2t dy dx` models
`Math.atan2(dy, dx) / (Math.PI * 2)` (result in turns). -/
structure MathOracle where
  sqrtq : ℚ → ℚ
  cos2pi : ℚ → ℚ
  sin2pi : ℚ → ℚ
  atan2t : ℚ → ℚ → ℚ

/-- Division as performed by the source: fails on a zero divisor instead of
silently producing a junk value. -/
def checkedDiv (a b : ℚ) : Option ℚ :=
  if b = 0 then none else some (a / b)

/-- The fixed logical timestep, `const dt = 1` (source line 190). -/
def dt : ℚ := 1

/-- Wrap-around boundary correction of one coordinate, the exact statement
sequence `if (c < 0) c += extent; if (c > extent) c -= extent;` shared by the
fluid (lines 499-502), weather (lines 348-351), swarm (lines 440-443) and
gravity horizontal (lines 227-228) boundary handling. -/
def wrapCoord (extent c : ℚ) : ℚ :=
  let c1 := if c < 0 then c + extent else c
  if c1 > extent then c1 - extent else c1

/-- Elastic bounce of one axis, the dead `else` branch of the fluid boundary
handling (source lines 504-512): invert the velocity and clamp the coordinate. -/
def bounceAxis (extent c v : ℚ) : ℚ × ℚ :=
  if c < 0 ∨ c > extent then (max 0 (min extent c), v * (-1)) else (c, v)

/-- Velocity clamp shared by the fluid / chaos / weather / swarm branches
(source lines 486-491, 265-270, 336-341, 428-433): if `vx² + vy²` exceeds
`maxV²`, rescale to magnitude `maxV` using `Math.sqrt`. -/
def clampC (maxV : ℚ) (O : MathOracle) (vx vy : ℚ) : Option (ℚ × ℚ) :=
  let speedSq := vx * vx + vy * vy
  if speedSq > maxV * maxV then do
    let speed := O.sqrtq speedSq
    let nvx ← checkedDiv vx speed
    let nvy ← checkedDiv vy speed
    some (nvx * maxV, nvy * maxV)
  else
    some (vx, vy)

/-- The shared Integrator step: velocity clamp followed by the explicit-Euler
position update `p.x += p.vx * dt; p.y += p.vy * dt` (source lines 486-495 and
the analogous lines of the other clamped modes). Returns `(x, y, vx, vy)`. -/
def integratorPhase (maxV : ℚ) (O : MathOracle) (x y vx vy : ℚ) :
    Option (ℚ × ℚ × ℚ × ℚ) := do
  let (cvx, cvy) ← clampC maxV O vx vy
  some (x + cvx * dt, y + cvy * dt, cvx, cvy)

/-- The velocity clamp bound each mode's configuration declares. The gravity
configuration declares none, and the gravity branch (source lines 200-236)
applies no clamp. -/
def modeMaxVelocity : SimulationMode → Option ℚ
  | .fluid => some CONFIG.MAX_VELOCITY
  | .gravity => none
  | .chaos => some CHAOS_CONFIG.MAX_VELOCITY
  | .weather => some WEATHER_CONFIG.MAX_VELOCITY
  | .swarm => some SWARM_CONFIG.MAX_VELOCITY

/-- The whitespace code points removed by ECMAScript `String.prototype.trim`,
used by the particle filter `ch.trim().length > 0` (source line 110). -/
def isJsWhitespace (c : Char) : Bool :=
  c.toNat ∈ [0x9, 0xA, 0xB, 0xC, 0xD, 0x20, 0xA0, 0x1680,
    0x2000, 0x2001, 0x2002, 0x2003, 0x2004, 0x2005, 0x2006, 0x2007,
    0x2008, 0x2009, 0x200A, 0x2028, 0x2029, 0x202F, 0x205F, 0x3000, 0xFEFF]

/-- Model of `ch.trim()` on a one-character string: empty when the character
is whitespace, the character itself otherwise. -/
def jsTrim1 (c : Char) : List Char :=
  if isJsWhitespace c then [] else [c]

/-- Creation of one particle from a character and its random position, the loop
body of `initParticles` (source lines 112-145). -/
def mkParticle (O : MathOracle) (ch : Char) (x y : ℚ) : Particle :=
  let code : ℤ := ch.toNat
  let norm : ℚ := max 0 (min 1 (((code : ℚ) - 32) / (126 - 32)))
  let angle := norm
  let speed := norm * 2
  let vx := O.cos2pi angle * speed
  let vy := O.sin2pi angle * speed
  let mass := 0.5 + (1 - norm) * 0.5
  let hue := norm * 360
  { ch := ch, code := code, x := x, y := y, vx := vx, vy := vy,
    norm := norm, mass := mass, hue := hue }

/-- The ParticleFactory `initParticles` (source lines 108-150): filter out
characters whose trimmed form is empty, create one particle per remaining
character at a random position, and report the resulting count (the second
component models the `onParticleCount?.(particles.length)` callback). -/
def initParticles (O : MathOracle) (rng : ℕ → ℚ) (w h : ℚ) (text : List Char) :
    List Particle × ℕ :=
  let chars := text.filter (fun ch => decide (0 < (jsTrim1 ch).length))
  let particles := chars.enum.map
    (fun iCh => mkParticle O iCh.2 (rng (2 * iCh.1) * w) (rng (2 * iCh.1 + 1) * h))
  (particles, particles.length)

/-- One interaction contribution of the fluid mode (source lines 451-478): the
velocity delta a sampled neighbor adds to the current particle. Similar
character codes attract, different ones repel; the force is scaled by
`1 / (dist + 1)`, divided by the particle's own mass and projected onto the
unit vector toward the neighbor. -/
def fluidContrib (O : MathOracle) (p neighbor : Particle) : Option (ℚ × ℚ) := do
  let dx := neighbor.x - p.x
  let dy := neighbor.y - p.y
  let distSq := dx * dx + dy * dy
  let dist := O.sqrtq distSq
  if dist < CONFIG.INTERACTION_RADIUS ∧ dist > 0 then do
    let codeDiff := neighbor.code - p.code
    let absDiff := |codeDiff|
    let force ←
      if absDiff < 10 then
        some CONFIG.ATTRACTION_STRENGTH
      else do
        let diffScaled ← checkedDiv (absDiff : ℚ) 50
        some (-CONFIG.REPULSION_STRENGTH * diffScaled)
    let forceOverDist ← checkedDiv force (dist + 1)
    let strength ← checkedDiv forceOverDist p.mass
    let ux ← checkedDiv dx dist
    let uy ← checkedDiv dy dist
    some (ux * strength, uy * strength)
  else
    some (0, 0)

/-- The fluid neighbor-sampling loop (source lines 447-479): sample
`NEIGHBORS_TO_CHECK` random indices with replacement, skip a sampled index
equal to self, and accumulate the interaction contributions. `rng j` is the
`j`-th `Math.random()` draw of this particle's loop. Returns the total
velocity delta. -/
def fluidSample (O : MathOracle) (rng : ℕ → ℚ) (arr : List Particle) (i : ℕ)
    (p : Particle) : Option (ℚ × ℚ) :=
  (List.range CONFIG.NEIGHBORS_TO_CHECK).foldlM
    (fun (acc : ℚ × ℚ) j => do
      let neighborIndex := (Int.floor (rng j * (arr.length : ℚ))).toNat
      if neighborIndex = i then
        some acc
      else do
        let neighbor ← arr[neighborIndex]?
        let c ← fluidContrib O p neighbor
        some (acc.1 + c.1, acc.2 + c.2))
    (0, 0)

/-- One particle's fluid-mode tick (source lines 444-513): neighbor
interaction, friction, velocity clamp, Euler position update, boundary policy
(wrap under the compiled-in `CONFIG.BOUNDARY_MODE = 'wrap'`, bounce in the
dead branch). Returns the new `(x, y, vx, vy)`. -/
def fluidKin (O : MathOracle) (rng : ℕ → ℚ) (w h : ℚ) (arr : List Particle)
    (i : ℕ) (p : Particle) : Option (ℚ × ℚ × ℚ × ℚ) := do
  let (dvx, dvy) ← fluidSample O rng arr i p
  let vx1 := (p.vx + dvx) * CONFIG.FRICTION
  let vy1 := (p.vy + dvy) * CONFIG.FRICTION
  let (x2, y2, vx2, vy2) ← integratorPhase CONFIG.MAX_VELOCITY O p.x p.y vx1 vy1
  if CONFIG.BOUNDARY_MODE = BoundaryMode.wrap then
    some (wrapCoord w x2, wrapCoord h y2, vx2, vy2)
  else
    let (x3, vx3) := bounceAxis w x2 vx2
    let (y3, vy3) := bounceAxis h y2 vy2
    some (x3, y3, vx3, vy3)

/-- One particle's gravity-mode tick (source lines 200-236): gravity scaled by
mass, air resistance, Euler position update, floor collision with bounce
damping / ground friction / rest snap, horizontal wrap, and re-entry from the
top when the particle escaped upward. `rng 0` and `rng 1` are the two
`Math.random()` draws of the re-entry branch. -/
def gravityKin (rng : ℕ → ℚ) (w h : ℚ) (p : Particle) : Option (ℚ × ℚ × ℚ × ℚ) :=
  let vy1 := p.vy + GRAVITY_CONFIG.GRAVITY * p.mass
  let vx1 := p.vx * GRAVITY_CONFIG.AIR_RESISTANCE
  let vy2 := vy1 * GRAVITY_CONFIG.AIR_RESISTANCE
  let x1 := p.x + vx1 * dt
  let y1 := p.y + vy2 * dt
  let groundY := h - GRAVITY_CONFIG.FLOOR_OFFSET
  let (y2, vx2, vy3) :=
    if y1 ≥ groundY then
      let vyB := vy2 * (-GRAVITY_CONFIG.BOUNCE_DAMPING)
      (groundY, vx1 * GRAVITY_CONFIG.GROUND_FRICTION,
        if |vyB| < 0.5 then 0 else vyB)
    else
      (y1, vx1, vy2)
  let x2 := wrapCoord w x1
  if y2 < -50 then
    some (rng 0 * w, -10, (rng 1 - 0.5) * 2, 0)
  else
    some (x2, y2, vx2, vy3)

/-- One particle's chaos-mode tick (source lines 237-288): probabilistic
turbulence impulse, weak attraction to the surface center, light friction,
velocity clamp, Euler position update, and wall bounce with energy injection
plus a random orthogonal impulse. Random draws: `rng 0` turbulence test,
`rng 1` impulse angle (in turns), `rng 2` impulse magnitude, `rng 3` x-wall
impulse, `rng 4` y-wall impulse. -/
def chaosKin (O : MathOracle) (rng : ℕ → ℚ) (w h : ℚ) (p : Particle) :
    Option (ℚ × ℚ × ℚ × ℚ) := do
  let turbForce := CHAOS_CONFIG.RANDOM_FORCE_STRENGTH * (0.5 + rng 2 * 0.5)
  let vxT := if rng 0 < CHAOS_CONFIG.TURBULENCE_FREQUENCY then
      p.vx + O.cos2pi (rng 1) * turbForce else p.vx
  let vyT := if rng 0 < CHAOS_CONFIG.TURBULENCE_FREQUENCY then
      p.vy + O.sin2pi (rng 1) * turbForce else p.vy
  let centerX ← checkedDiv w 2
  let centerY ← checkedDiv h 2
  let dcx := centerX - p.x
  let dcy := centerY - p.y
  let centerDist := O.sqrtq (dcx * dcx + dcy * dcy)
  let (vxC, vyC) ←
    if centerDist > 0 then do
      let distScaled ← checkedDiv centerDist 100
      let centerForce := CHAOS_CONFIG.CENTER_ATTRACTION * distScaled
      let ux ← checkedDiv dcx centerDist
      let uy ← checkedDiv dcy centerDist
      some (vxT + ux * centerForce, vyT + uy * centerForce)
    else
      some (vxT, vyT)
  let vxF := vxC * CHAOS_CONFIG.FRICTION
  let vyF := vyC * CHAOS_CONFIG.FRICTION
  let (x1, y1, vx1, vy1) ← integratorPhase CHAOS_CONFIG.MAX_VELOCITY O p.x p.y vxF vyF
  let x2 := if x1 < 0 ∨ x1 > w then max 0 (min w x1) else x1
  let vx2 := if x1 < 0 ∨ x1 > w then vx1 * (-CHAOS_CONFIG.WALL_BOUNCE_ENERGY) else vx1
  let vy2 := if x1 < 0 ∨ x1 > w then vy1 + (rng 3 - 0.5) * 0.3 else vy1
  let y2 := if y1 < 0 ∨ y1 > h then max 0 (min h y1) else y1
  let vy3 := if y1 < 0 ∨ y1 > h then vy2 * (-CHAOS_CONFIG.WALL_BOUNCE_ENERGY) else vy2
  let vx3 := if y1 < 0 ∨ y1 > h then vx2 + (rng 4 - 0.5) * 0.3 else vx2
  some (x2, y2, vx3, vy3)

/-- Advance one vortex by its own velocity and bounce it off the surface edges
by simple velocity inversion (source lines 292-305). -/
def vortexStep (w h : ℚ) (v : Vortex) : Vortex :=
  let x1 := v.x + v.vx
  let y1 := v.y + v.vy
  let (x2, vx2) := if x1 < 0 ∨ x1 > w then (max 0 (min w x1), v.vx * (-1)) else (x1, v.vx)
  let (y2, vy2) := if y1 < 0 ∨ y1 > h then (max 0 (min h y1), v.vy * (-1)) else (y1, v.vy)
  { v with x := x2, y := y2, vx := vx2, vy := vy2 }

/-- One particle's weather-mode force and integration (source lines 307-351),
applied after the vortex update: tangential force of every vortex within its
radius, time-varying global wind, friction, velocity clamp, Euler position
update, and wrap on both axes. `t` is `currentTime`. -/
def weatherKin (O : MathOracle) (w h t : ℚ) (vs : List Vortex) (p : Particle) :
    Option (ℚ × ℚ × ℚ × ℚ) := do
  let (vxV, vyV) ← vs.foldlM
    (fun (acc : ℚ × ℚ) vortex => do
      let dx := p.x - vortex.x
      let dy := p.y - vortex.y
      let dist := O.sqrtq (dx * dx + dy * dy)
      if dist < WEATHER_CONFIG.VORTEX_RADIUS ∧ dist > 1 then do
        let angle := O.atan2t dy dx
        let tangentAngle := angle + 0.25 * vortex.rotation
        let distRel ← checkedDiv dist WEATHER_CONFIG.VORTEX_RADIUS
        let forceMagnitude := vortex.strength * (1 - distRel)
        some (acc.1 + O.cos2pi tangentAngle * forceMagnitude,
          acc.2 + O.sin2pi tangentAngle * forceMagnitude)
      else
        some acc)
    (p.vx, p.vy)
  let windAngle ← checkedDiv t 5000
  let vxW := vxV + O.cos2pi windAngle * WEATHER_CONFIG.WIND_STRENGTH
  let vyW := vyV + O.sin2pi windAngle * WEATHER_CONFIG.WIND_STRENGTH
  let vxF := vxW * WEATHER_CONFIG.FRICTION
  let vyF := vyW * WEATHER_CONFIG.FRICTION
  let (x1, y1, vx1, vy1) ← integratorPhase WEATHER_CONFIG.MAX_VELOCITY O p.x p.y vxF vyF
  some (wrapCoord w x1, wrapCoord h y1, vx1, vy1)

/-- Accumulators of the swarm flocking loop (source lines 354-362). -/
structure SwarmAcc where
  separationX : ℚ
  separationY : ℚ
  alignmentX : ℚ
  alignmentY : ℚ
  cohesionX : ℚ
  cohesionY : ℚ
  separationCount : ℚ
  alignmentCount : ℚ
  cohesionCount : ℚ
deriving DecidableEq

/-- One particle's swarm-mode tick (source lines 352-443): sample
`NEIGHBORS_TO_CHECK` random neighbors (with replacement, self skipped),
accumulate separation / alignment / cohesion terms, apply the three averaged
forces, random noise, friction, velocity clamp, Euler position update, and
wrap on both axes. `rng j` for `j < 8` are the neighbor draws, `rng 8` the
noise angle (in turns). -/
def swarmKin (O : MathOracle) (rng : ℕ → ℚ) (w h : ℚ) (arr : List Particle)
    (i : ℕ) (p : Particle) : Option (ℚ × ℚ × ℚ × ℚ) := do
  let acc ← (List.range SWARM_CONFIG.NEIGHBORS_TO_CHECK).foldlM
    (fun (a : SwarmAcc) j => do
      let neighborIndex := (Int.floor (rng j * (arr.length : ℚ))).toNat
      if neighborIndex = i then
        some a
      else do
        let neighbor ← arr[neighborIndex]?
        let dx := neighbor.x - p.x
        let dy := neighbor.y - p.y
        let dist := O.sqrtq (dx * dx + dy * dy)
        let a1 ←
          if dist < SWARM_CONFIG.SEPARATION_RADIUS ∧ dist > 0 then do
            let ux ← checkedDiv dx dist
            let uy ← checkedDiv dy dist
            some { a with
                   separationX := a.separationX - ux
                   separationY := a.separationY - uy
                   separationCount := a.separationCount + 1 }
          else
            some a
        let a2 :=
          if dist < SWARM_CONFIG.ALIGNMENT_RADIUS then
            { a1 with
              alignmentX := a1.alignmentX + neighbor.vx
              alignmentY := a1.alignmentY + neighbor.vy
              alignmentCount := a1.alignmentCount + 1 }
          else
            a1
        let a3 :=
          if dist < SWARM_CONFIG.COHESION_RADIUS then
            { a2 with
              cohesionX := a2.cohesionX + dx
              cohesionY := a2.cohesionY + dy
              cohesionCount := a2.cohesionCount + 1 }
          else
            a2
        some a3)
    ⟨0, 0, 0, 0, 0, 0, 0, 0, 0⟩
  let (vxS, vyS) ←
    if acc.separationCount > 0 then do
      let sx ← checkedDiv acc.separationX acc.separationCount
      let sy ← checkedDiv acc.separationY acc.separationCount
      some (p.vx + sx * SWARM_CONFIG.SEPARATION_STRENGTH,
        p.vy + sy * SWARM_CONFIG.SEPARATION_STRENGTH)
    else
      some (p.vx, p.vy)
  let (vxA, vyA) ←
    if acc.alignmentCount > 0 then do
      let avgVx ← checkedDiv acc.alignmentX acc.alignmentCount
      let avgVy ← checkedDiv acc.alignmentY acc.alignmentCount
      some (vxS + (avgVx - vxS) * SWARM_CONFIG.ALIGNMENT_STRENGTH,
        vyS + (avgVy - vyS) * SWARM_CONFIG.ALIGNMENT_STRENGTH)
    else
      some (vxS, vyS)
  let (vxC, vyC) ←
    if acc.cohesionCount > 0 then do
      let avgDx ← checkedDiv acc.cohesionX acc.cohesionCount
      let avgDy ← checkedDiv acc.cohesionY acc.cohesionCount
      some (vxA + avgDx * SWARM_CONFIG.COHESION_STRENGTH,
        vyA + avgDy * SWARM_CONFIG.COHESION_STRENGTH)
    else
      some (vxA, vyA)
  let noiseAngle := rng 8
  let vxN := vxC + O.cos2pi noiseAngle * SWARM_CONFIG.RANDOM_NOISE
  let vyN := vyC + O.sin2pi noiseAngle * SWARM_CONFIG.RANDOM_NOISE
  let vxF := vxN * SWARM_CONFIG.FRICTION
  let vyF := vyN * SWARM_CONFIG.FRICTION
  let (x1, y1, vx1, vy1) ← integratorPhase SWARM_CONFIG.MAX_VELOCITY O p.x p.y vxF vyF
  some (wrapCoord w x1, wrapCoord h y1, vx1, vy1)

/-- Overwrite a particle's kinematic fields with a computed `(x, y, vx, vy)`.
The tick mutates no other field of the particle. -/
def applyKin (p : Particle) (k : ℚ × ℚ × ℚ × ℚ) : Particle :=
  { p with x := k.1, y := k.2.1, vx := k.2.2.1, vy := k.2.2.2 }

/-- The per-particle body of the tick loop (source lines 197-514), dispatched
on the mode. In weather mode the body first advances every vortex (the vortex
update loop sits inside the per-particle loop in the source, lines 292-305)
and then applies the vortex forces to the particle. -/
def modeStep (m : SimulationMode) (O : MathOracle) (rng : ℕ → ℚ) (w h t : ℚ)
    (arr : List Particle) (vs : List Vortex) (i : ℕ) (p : Particle) :
    Option (Particle × List Vortex) :=
  match m with
  | .fluid => (fluidKin O rng w h arr i p).map (fun k => (applyKin p k, vs))
  | .gravity => (gravityKin rng w h p).map (fun k => (applyKin p k, vs))
  | .chaos => (chaosKin O rng w h p).map (fun k => (applyKin p k, vs))
  | .weather =>
      let vs1 := vs.map (vortexStep w h)
      (weatherKin O w h t vs1 p).map (fun k => (applyKin p k, vs1))
  | .swarm => (swarmKin O rng w h arr i p).map (fun k => (applyKin p k, vs))

/-- The tick loop `for (let i = 0; i < particles.length; i++)` (source line
197): update particle `i` in place, then continue with the next index. `k` is
the number of remaining iterations, `rng2 i` the random stream consumed by
particle `i`'s body. -/
def tickAux (m : SimulationMode) (O : MathOracle) (rng2 : ℕ → ℕ → ℚ)
    (w h t : ℚ) : ℕ → ℕ → EngineState → Option EngineState
  | 0, _, S => some S
  | k + 1, i, S => do
      let p ← S.particles[i]?
      let r ← modeStep m O (rng2 i) w h t S.particles S.vortices i p
      tickAux m O rng2 w h t k (i + 1) ⟨S.particles.set i r.1, r.2⟩

/-- One full simulation tick over the whole particle array (source lines
196-521, the physics part of one executed frame). -/
def simTick (m : SimulationMode) (O : MathOracle) (rng2 : ℕ → ℕ → ℚ)
    (w h t : ℚ) (S : EngineState) : Option EngineState :=
  tickAux m O rng2 w h t S.particles.length 0 S

/-! Helper lemmas. -/

lemma checkedDiv_eq (a b : ℚ) (hb : b ≠ 0) : checkedDiv a b = some (a / b) := by
  simp [checkedDiv, hb]

lemma exists_foldlM_option {α β : Type} {f : β → α → Option β} {l : List α}
    (hstep : ∀ b a, a ∈ l → ∃ c, f b a = some c) :
    ∀ b, ∃ c, l.foldlM f b = some c := by
  induction l with
  | nil => exact fun b => ⟨b, rfl⟩
  | cons a l ih =>
      intro b
      obtain ⟨c, hc⟩ := hstep b a (List.mem_cons_self a l)
      obtain ⟨d, hd⟩ := ih (fun b x hx => hstep b x (List.mem_cons_of_mem _ hx)) c
      exact ⟨d, by rw [List.foldlM_cons, hc]; simpa using hd⟩

lemma sampled_index_lt (r : ℚ) (len : ℕ) (h0 : 0 ≤ r) (h1 : r < 1)
    (hlen : 0 < len) : (Int.floor (r * (len : ℚ))).toNat < len := by
  have hcast : (0 : ℚ) < (len : ℚ) := by exact_mod_cast hlen
  have hub : r * (len : ℚ) < (len : ℚ) := by nlinarith
  have h2 : Int.floor (r * (len : ℚ)) < (len : ℤ) := by
    rw [Int.floor_lt]; exact_mod_cast hub
  omega

/-! Claims C3 and C4: the ParticleFactory. -/

/-- Claim C3: for every input string, the number of particles produced at
initialization equals the number of characters whose trimmed form is non-empty
(the non-whitespace characters); the empty input yields zero particles, and
the count reported to the caller equals the particle count. -/
theorem init_count_eq_nonwhitespace (O : MathOracle) (rng : ℕ → ℚ) (w h : ℚ)
    (text : List Char) :
    (initParticles O rng w h text).1.length
        = (text.filter (fun c => !isJsWhitespace c)).length
      ∧ (initParticles O rng w h text).2 = (initParticles O rng w h text).1.length
      ∧ (initParticles O rng w h []).2 = 0 := by
  have hpred : ∀ c : Char, decide (0 < (jsTrim1 c).length) = !isJsWhitespace c := by
    intro c
    cases hc : isJsWhitespace c <;> simp [jsTrim1, hc]
  refine ⟨?_, rfl, rfl⟩
  simp [initParticles, hpred]

/-- Claim C4: every particle created by the factory from a character with code
`c` has `norm = clamp((c - 32) / (126 - 32), 0, 1)`,
`mass = 0.5 + (1 - norm) * 0.5 ∈ [0.5, 1]`, `hue = norm * 360`, and initial
velocity `(cos(norm·2π) · norm · 2, sin(norm·2π) · norm · 2)`, whose magnitude
is `norm * 2` (given the trigonometric identity for the oracle). -/
theorem factory_attribute_formulas (O : MathOracle)
    (htrig : ∀ q, O.cos2pi q ^ 2 + O.sin2pi q ^ 2 = 1)
    (ch : Char) (x y : ℚ) :
    (mkParticle O ch x y).norm
        = max 0 (min 1 ((((mkParticle O ch x y).code : ℚ) - 32) / (126 - 32)))
      ∧ (mkParticle O ch x y).mass = 0.5 + (1 - (mkParticle O ch x y).norm) * 0.5
      ∧ 0.5 ≤ (mkParticle O ch x y).mass ∧ (mkParticle O ch x y).mass ≤ 1
      ∧ (mkParticle O ch x y).hue = (mkParticle O ch x y).norm * 360
      ∧ (mkParticle O ch x y).vx
          = O.cos2pi ((mkParticle O ch x y).norm) * ((mkParticle O ch x y).norm * 2)
      ∧ (mkParticle O ch x y).vy
          = O.sin2pi ((mkParticle O ch x y).norm) * ((mkParticle O ch x y).norm * 2)
      ∧ (mkParticle O ch x y).vx ^ 2 + (mkParticle O ch x y).vy ^ 2
          = ((mkParticle O ch x y).norm * 2) ^ 2 := by
  have hn0 : (0 : ℚ) ≤ (mkParticle O ch x y).norm := by
    simp [mkParticle]
  have hn1 : (mkParticle O ch x y).norm ≤ 1 := by
    simp only [mkParticle]
    exact max_le (by norm_num) (min_le_left _ _)
  refine ⟨rfl, rfl, ?_, ?_, rfl, rfl, rfl, ?_⟩
  · simp only [mkParticle] at hn1 ⊢
    nlinarith
  · simp only [mkParticle] at hn0 ⊢
    nlinarith
  · have h := htrig ((mkParticle O ch x y).norm)
    simp only [mkParticle] at h ⊢
    nlinarith [h]

/-- Witness for `factory_attribute_formulas` at the character `'A'` with the
oracle whose cosine is constantly 1 and sine constantly 0. -/
theorem factory_attribute_formulas_witness :
    (mkParticle ⟨fun _ => 0, fun _ => 1, fun _ => 0, fun _ _ => 0⟩ 'A' 0 0).norm
        = max 0 (min 1 ((((mkParticle ⟨fun _ => 0, fun _ => 1, fun _ => 0, fun _ _ => 0⟩ 'A' 0 0).code : ℚ) - 32) / (126 - 32)))
      ∧ (mkParticle ⟨fun _ => 0, fun _ => 1, fun _ => 0, fun _ _ => 0⟩ 'A' 0 0).mass
          = 0.5 + (1 - (mkParticle ⟨fun _ => 0, fun _ => 1, fun _ => 0, fun _ _ => 0⟩ 'A' 0 0).norm) * 0.5
      ∧ 0.5 ≤ (mkParticle ⟨fun _ => 0, fun _ => 1, fun _ => 0, fun _ _ => 0⟩ 'A' 0 0).mass
      ∧ (mkParticle ⟨fun _ => 0, fun _ => 1, fun _ => 0, fun _ _ => 0⟩ 'A' 0 0).mass ≤ 1
      ∧ (mkParticle ⟨fun _ => 0, fun _ => 1, fun _ => 0, fun _ _ => 0⟩ 'A' 0 0).hue
          = (mkParticle ⟨fun _ => 0, fun _ => 1, fun _ => 0, fun _ _ => 0⟩ 'A' 0 0).norm * 360
      ∧ (mkParticle ⟨fun _ => 0, fun _ => 1, fun _ => 0, fun _ _ => 0⟩ 'A' 0 0).vx
          = (1 : ℚ) * ((mkParticle ⟨fun _ => 0, fun _ => 1, fun _ => 0, fun _ _ => 0⟩ 'A' 0 0).norm * 2)
      ∧ (mkParticle ⟨fun _ => 0, fun _ => 1, fun _ => 0, fun _ _ => 0⟩ 'A' 0 0).vy
          = (0 : ℚ) * ((mkParticle ⟨fun _ => 0, fun _ => 1, fun _ => 0, fun _ _ => 0⟩ 'A' 0 0).norm * 2)
      ∧ (mkParticle ⟨fun _ => 0, fun _ => 1, fun _ => 0, fun _ _ => 0⟩ 'A' 0 0).vx ^ 2
          + (mkParticle ⟨fun _ => 0, fun _ => 1, fun _ => 0, fun _ _ => 0⟩ 'A' 0 0).vy ^ 2
          = ((mkParticle ⟨fun _ => 0, fun _ => 1, fun _ => 0, fun _ _ => 0⟩ 'A' 0 0).norm * 2) ^ 2 :=
  factory_attribute_formulas ⟨fun _ => 0, fun _ => 1, fun _ => 0, fun _ _ => 0⟩
    (fun q => by norm_num) 'A' 0 0

/-! Claim C5: the Wrap boundary policy. -/

/-- Claim C5 as amended: under the Wrap boundary policy, for every mode clamp
constant `maxV` and every surface extent at least `maxV`, after boundary
correction the coordinate lies in the closed interval `[0, extent]` — the
upper bound is attained, not strict — for every pre-correction position
reachable in one tick (previous position inside `[0, extent]` moved by a
displacement of magnitude at most `maxV`, the post-clamp speed bound). On
extents smaller than `maxV` even the closed bound can fail, because the wrap
subtracts the extent only once. -/
theorem wrap_bounds_closed (m : SimulationMode) (maxV w x vx : ℚ)
    (hmode : modeMaxVelocity m = some maxV) (hwm : maxV ≤ w)
    (hx0 : 0 ≤ x) (hxw : x ≤ w) (hv : |vx| ≤ maxV) :
    0 ≤ wrapCoord w (x + vx) ∧ wrapCoord w (x + vx) ≤ w := by
  obtain ⟨hv1, hv2⟩ := abs_le.mp hv
  have hv1w : -w ≤ vx := by linarith
  have hv2w : vx ≤ w := by linarith
  simp only [wrapCoord]
  split_ifs <;> constructor <;> linarith

/-- Witness for `wrap_bounds_closed` in fluid mode (`maxV = 3`) at
`extent = 100`, `x = 50`, `vx = 3`. -/
theorem wrap_bounds_closed_witness :
    0 ≤ wrapCoord 100 (50 + 3) ∧ wrapCoord 100 (50 + 3) ≤ 100 :=
  wrap_bounds_closed SimulationMode.fluid 3 100 50 3 rfl (by norm_num)
    (by norm_num) (by norm_num) (by norm_num)

/-- Counterexample to claim C5 as stated, at two explicit inputs. First, the
strict upper bound fails: a fluid-mode particle at `x = 97` (inside
`[0, width)`) with `vx = 3` (within the fluid `MAX_VELOCITY`) reaches the
pre-correction position `100`, and the wrap correction leaves it exactly at
`x = width = 100`, so `x < width` fails. Second, for a surface extent smaller
than the clamp constant the correction does not even reach `[0, width]`: at
`width = 2`, `x = 3/2`, `vx = 3` (again within the fluid `MAX_VELOCITY`) the
single subtraction leaves `x = 5/2 > width`. -/
theorem wrap_at_extent_cex :
    (wrapCoord 100 (97 + 3) = 100
      ∧ ¬ wrapCoord 100 (97 + 3) < 100
      ∧ 0 ≤ (97 : ℚ) ∧ (97 : ℚ) < 100 ∧ |(3 : ℚ)| ≤ CONFIG.MAX_VELOCITY)
    ∧ (wrapCoord 2 (3/2 + 3) = 5/2
      ∧ ¬ wrapCoord 2 (3/2 + 3) ≤ 2
      ∧ 0 ≤ (3/2 : ℚ) ∧ (3/2 : ℚ) < 2 ∧ |(3 : ℚ)| ≤ CONFIG.MAX_VELOCITY) := by
  have habs : |(3 : ℚ)| ≤ CONFIG.MAX_VELOCITY := by
    rw [abs_of_nonneg (by norm_num : (0:ℚ) ≤ 3)]
    norm_num [CONFIG.MAX_VELOCITY]
  exact ⟨⟨by norm_num [wrapCoord], by norm_num [wrapCoord], by norm_num,
      by norm_num, habs⟩,
    ⟨by norm_num [wrapCoord], by norm_num [wrapCoord], by norm_num,
      by norm_num, habs⟩⟩

/-! Claim C6: the gravity floor collision. -/

/-- Claim C6: in gravity mode, when the position update brings `y` to at least
`height - FLOOR_OFFSET`, then after the tick `y` equals exactly
`height - FLOOR_OFFSET`, `vy` has been multiplied by `-BOUNCE_DAMPING` (then
snapped to zero when small), `vx` has been multiplied by `GROUND_FRICTION`,
and `vy = 0` exactly when the resulting `|vy| < 0.5`. -/
theorem gravity_floor_bounce (rng : ℕ → ℚ) (w h : ℚ) (p : Particle)
    (hh : 0 < h)
    (hfloor : p.y + (p.vy + GRAVITY_CONFIG.GRAVITY * p.mass)
        * GRAVITY_CONFIG.AIR_RESISTANCE * dt ≥ h - GRAVITY_CONFIG.FLOOR_OFFSET) :
    ∃ x1,
      gravityKin rng w h p
          = some (x1, h - GRAVITY_CONFIG.FLOOR_OFFSET,
              (p.vx * GRAVITY_CONFIG.AIR_RESISTANCE) * GRAVITY_CONFIG.GROUND_FRICTION,
              if |(p.vy + GRAVITY_CONFIG.GRAVITY * p.mass) * GRAVITY_CONFIG.AIR_RESISTANCE
                    * (-GRAVITY_CONFIG.BOUNCE_DAMPING)| < 0.5 then 0
              else (p.vy + GRAVITY_CONFIG.GRAVITY * p.mass) * GRAVITY_CONFIG.AIR_RESISTANCE
                    * (-GRAVITY_CONFIG.BOUNCE_DAMPING))
      ∧ ((if |(p.vy + GRAVITY_CONFIG.GRAVITY * p.mass) * GRAVITY_CONFIG.AIR_RESISTANCE
                * (-GRAVITY_CONFIG.BOUNCE_DAMPING)| < 0.5 then (0 : ℚ)
          else (p.vy + GRAVITY_CONFIG.GRAVITY * p.mass) * GRAVITY_CONFIG.AIR_RESISTANCE
                * (-GRAVITY_CONFIG.BOUNCE_DAMPING)) = 0
          ↔ |(p.vy + GRAVITY_CONFIG.GRAVITY * p.mass) * GRAVITY_CONFIG.AIR_RESISTANCE
                * (-GRAVITY_CONFIG.BOUNCE_DAMPING)| < 0.5) := by
  have hnoReset : ¬ h - GRAVITY_CONFIG.FLOOR_OFFSET < -50 := by
    simp only [GRAVITY_CONFIG.FLOOR_OFFSET]
    linarith
  refine ⟨wrapCoord w (p.x + p.vx * GRAVITY_CONFIG.AIR_RESISTANCE * dt), ?_, ?_⟩
  · simp only [gravityKin]
    rw [if_pos hfloor, if_neg hnoReset]
  · constructor
    · intro h0
      by_contra hlt
      rw [if_neg hlt] at h0
      exact hlt (by rw [h0]; norm_num)
    · intro hlt
      rw [if_pos hlt]

/-- A particle resting on the gravity floor line of a 100×100 surface. -/
def pFloorW : Particle := ⟨'A', 65, 50, 90, 0, 0, 0, 3/4, 0⟩

/-- Witness for `gravity_floor_bounce`: a particle at rest on the floor line of
a 100×100 surface is kept exactly on the line with zero vertical velocity. -/
theorem gravity_floor_bounce_witness :
    ∃ x1, gravityKin (fun _ => 0) 100 100 pFloorW = some (x1, 90, 0, 0) := by
  obtain ⟨x1, h1, -⟩ := gravity_floor_bounce (fun _ => 0) 100 100 pFloorW
    (by norm_num)
    (by norm_num [pFloorW, GRAVITY_CONFIG.GRAVITY, GRAVITY_CONFIG.AIR_RESISTANCE,
      GRAVITY_CONFIG.FLOOR_OFFSET, dt])
  refine ⟨x1, ?_⟩
  rw [h1]
  norm_num [pFloorW, GRAVITY_CONFIG.FLOOR_OFFSET, GRAVITY_CONFIG.AIR_RESISTANCE,
    GRAVITY_CONFIG.GROUND_FRICTION, GRAVITY_CONFIG.GRAVITY,
    GRAVITY_CONFIG.BOUNCE_DAMPING, abs_lt]

/-! Claim C7: similar character codes attract in fluid mode. -/

/-- Claim C7: in fluid mode, for two particles whose character codes differ
by 1 and whose distance is positive and within the interaction radius, a
contributing neighbor sample yields the velocity delta
`ATTRACTION_STRENGTH / (dist + 1) / mass` projected onto the unit vector
toward the other particle, and that delta points toward the other particle
(positive inner product with the offset). -/
theorem fluid_similar_codes_attract (O : MathOracle) (p n : Particle)
    (hmass : 0 < p.mass)
    (hcode : |n.code - p.code| = 1)
    (hdPos : 0 < O.sqrtq ((n.x - p.x) * (n.x - p.x) + (n.y - p.y) * (n.y - p.y)))
    (hdLt : O.sqrtq ((n.x - p.x) * (n.x - p.x) + (n.y - p.y) * (n.y - p.y))
        < CONFIG.INTERACTION_RADIUS)
    (hdSq : O.sqrtq ((n.x - p.x) * (n.x - p.x) + (n.y - p.y) * (n.y - p.y)) ^ 2
        = (n.x - p.x) * (n.x - p.x) + (n.y - p.y) * (n.y - p.y)) :
    ∃ dvx dvy,
      fluidContrib O p n = some (dvx, dvy)
      ∧ dvx = ((n.x - p.x) / O.sqrtq ((n.x - p.x) * (n.x - p.x) + (n.y - p.y) * (n.y - p.y)))
          * ((CONFIG.ATTRACTION_STRENGTH
              / (O.sqrtq ((n.x - p.x) * (n.x - p.x) + (n.y - p.y) * (n.y - p.y)) + 1)) / p.mass)
      ∧ dvy = ((n.y - p.y) / O.sqrtq ((n.x - p.x) * (n.x - p.x) + (n.y - p.y) * (n.y - p.y)))
          * ((CONFIG.ATTRACTION_STRENGTH
              / (O.sqrtq ((n.x - p.x) * (n.x - p.x) + (n.y - p.y) * (n.y - p.y)) + 1)) / p.mass)
      ∧ 0 < dvx * (n.x - p.x) + dvy * (n.y - p.y) := by
  set dx := n.x - p.x with hdx
  set dy := n.y - p.y with hdy
  set d := O.sqrtq (dx * dx + dy * dy) with hd
  have hdne : d ≠ 0 := ne_of_gt hdPos
  have hd1 : d + 1 ≠ 0 := by
    have : (0 : ℚ) < d + 1 := by linarith
    exact ne_of_gt this
  have habs : |n.code - p.code| < 10 := by rw [hcode]; norm_num
  have heq : fluidContrib O p n = some
      (dx / d * (CONFIG.ATTRACTION_STRENGTH / (d + 1) / p.mass),
       dy / d * (CONFIG.ATTRACTION_STRENGTH / (d + 1) / p.mass)) := by
    simp only [fluidContrib, ← hdx, ← hdy, ← hd]
    rw [if_pos ⟨hdLt, hdPos⟩, if_pos habs]
    simp [checkedDiv_eq _ _ hdne, checkedDiv_eq _ _ hd1,
      checkedDiv_eq _ _ (ne_of_gt hmass)]
  refine ⟨_, _, heq, rfl, rfl, ?_⟩
  have hs : 0 < CONFIG.ATTRACTION_STRENGTH / (d + 1) / p.mass := by
    apply div_pos (div_pos (by norm_num [CONFIG.ATTRACTION_STRENGTH]) (by linarith)) hmass
  have hkey : dx / d * (CONFIG.ATTRACTION_STRENGTH / (d + 1) / p.mass) * dx
      + dy / d * (CONFIG.ATTRACTION_STRENGTH / (d + 1) / p.mass) * dy
      = d * (CONFIG.ATTRACTION_STRENGTH / (d + 1) / p.mass) := by
    have expand : dx / d * (CONFIG.ATTRACTION_STRENGTH / (d + 1) / p.mass) * dx
        + dy / d * (CONFIG.ATTRACTION_STRENGTH / (d + 1) / p.mass) * dy
        = (dx * dx + dy * dy) / d * (CONFIG.ATTRACTION_STRENGTH / (d + 1) / p.mass) := by
      ring
    rw [expand, ← hdSq, pow_two, mul_div_assoc, div_self hdne, mul_one]
  rw [hkey]
  exact mul_pos hdPos hs

/-- Witness for `fluid_similar_codes_attract`: particles with codes 65 and 66
at distance 5 (offset `(3, 4)`), with the square-root oracle returning 5. -/
theorem fluid_similar_codes_attract_witness :
    ∃ dvx dvy,
      fluidContrib ⟨fun _ => 5, fun _ => 0, fun _ => 0, fun _ _ => 0⟩
          ⟨'A', 65, 0, 0, 0, 0, 0, 3/4, 0⟩ ⟨'B', 66, 3, 4, 0, 0, 0, 3/4, 0⟩
        = some (dvx, dvy)
      ∧ dvx = (((3 : ℚ) - 0) / 5) * ((CONFIG.ATTRACTION_STRENGTH / (5 + 1)) / (3/4))
      ∧ dvy = (((4 : ℚ) - 0) / 5) * ((CONFIG.ATTRACTION_STRENGTH / (5 + 1)) / (3/4))
      ∧ 0 < dvx * ((3 : ℚ) - 0) + dvy * ((4 : ℚ) - 0) := by
  obtain ⟨dvx, dvy, h1, h2, h3, h4⟩ :=
    fluid_similar_codes_attract ⟨fun _ => 5, fun _ => 0, fun _ => 0, fun _ _ => 0⟩
      ⟨'A', 65, 0, 0, 0, 0, 0, 3/4, 0⟩ ⟨'B', 66, 3, 4, 0, 0, 0, 3/4, 0⟩
      (by norm_num) (by norm_num) (by norm_num) (by norm_num [CONFIG.INTERACTION_RADIUS])
      (by norm_num)
  exact ⟨dvx, dvy, h1, by rw [h2], by rw [h3], h4⟩

/-! Claim C1: post-Integrator speed bound. -/

/-- Claim C1 as amended: for the four modes that declare a `MAX_VELOCITY`
(fluid 3, chaos 5, weather 4, swarm 3.5), immediately after the Integrator
step (velocity clamp followed by the `dt = 1` position update) every
particle's velocity satisfies `vx² + vy² ≤ MAX_VELOCITY²`. Gravity mode
declares no such constant and applies no clamp. -/
theorem post_integrator_speed_bounded (m : SimulationMode) (maxV : ℚ)
    (hmode : modeMaxVelocity m = some maxV)
    (O : MathOracle) (x y vx vy : ℚ)
    (hsq : O.sqrtq (vx * vx + vy * vy) ^ 2 = vx * vx + vy * vy) :
    ∃ x1 y1 vx1 vy1,
      integratorPhase maxV O x y vx vy = some (x1, y1, vx1, vy1)
      ∧ vx1 ^ 2 + vy1 ^ 2 ≤ maxV ^ 2 := by
  by_cases hc : vx * vx + vy * vy > maxV * maxV
  · have hne : O.sqrtq (vx * vx + vy * vy) ≠ 0 := by
      intro h0
      rw [h0] at hsq
      simp only [ne_eq, OfNat.ofNat_ne_zero, not_false_eq_true, zero_pow] at hsq
      nlinarith [mul_self_nonneg maxV]
    refine ⟨x + vx / O.sqrtq (vx * vx + vy * vy) * maxV * dt,
      y + vy / O.sqrtq (vx * vx + vy * vy) * maxV * dt,
      vx / O.sqrtq (vx * vx + vy * vy) * maxV,
      vy / O.sqrtq (vx * vx + vy * vy) * maxV, ?_, ?_⟩
    · simp only [integratorPhase, clampC]
      rw [if_pos hc]
      simp [checkedDiv_eq _ _ hne]
    · have hpow : (vx / O.sqrtq (vx * vx + vy * vy) * maxV) ^ 2
          + (vy / O.sqrtq (vx * vx + vy * vy) * maxV) ^ 2 = maxV ^ 2 := by
        field_simp
        nlinarith [hsq]
      exact le_of_eq hpow
  · refine ⟨x + vx * dt, y + vy * dt, vx, vy, ?_, ?_⟩
    · simp only [integratorPhase, clampC]
      rw [if_neg hc]
      rfl
    · push_neg at hc
      nlinarith [hc]

/-- Witness for `post_integrator_speed_bounded` in fluid mode, with velocity
`(30, 40)` (speed 50) and the square-root oracle returning 50. -/
theorem post_integrator_speed_bounded_witness :
    ∃ x1 y1 vx1 vy1,
      integratorPhase 3 ⟨fun _ => 50, fun _ => 0, fun _ => 0, fun _ _ => 0⟩ 0 0 30 40
          = some (x1, y1, vx1, vy1)
      ∧ vx1 ^ 2 + vy1 ^ 2 ≤ (3 : ℚ) ^ 2 :=
  post_integrator_speed_bounded SimulationMode.fluid 3 rfl
    ⟨fun _ => 50, fun _ => 0, fun _ => 0, fun _ _ => 0⟩ 0 0 30 40 (by norm_num)

/-- A gravity-mode particle falling fast, far from floor and ceiling. -/
def pGravCex : Particle := ⟨'A', 65, 50, 0, 0, 1000, 0, 3/4, 0⟩

/-- Counterexample to claim C1 as stated: the gravity configuration declares no
`MAX_VELOCITY`, and after the gravity position update a particle's speed can
exceed every mode's clamp constant — here `vy = 7961791/8000 ≈ 995.2` after
one tick, with `vy²` above `3²`, `5²`, `4²` and `3.5²`. -/
theorem gravity_speed_unbounded_cex :
    modeMaxVelocity SimulationMode.gravity = none
      ∧ gravityKin (fun _ => 1/2) 100 10000 pGravCex
          = some (50, 7961791/8000, 0, 7961791/8000)
      ∧ ((7961791 : ℚ) / 8000) ^ 2 > CONFIG.MAX_VELOCITY ^ 2
      ∧ ((7961791 : ℚ) / 8000) ^ 2 > CHAOS_CONFIG.MAX_VELOCITY ^ 2
      ∧ ((7961791 : ℚ) / 8000) ^ 2 > WEATHER_CONFIG.MAX_VELOCITY ^ 2
      ∧ ((7961791 : ℚ) / 8000) ^ 2 > SWARM_CONFIG.MAX_VELOCITY ^ 2 := by
  refine ⟨rfl, ?_, ?_, ?_, ?_, ?_⟩
  · norm_num [gravityKin, pGravCex, dt, GRAVITY_CONFIG.GRAVITY,
      GRAVITY_CONFIG.AIR_RESISTANCE, GRAVITY_CONFIG.BOUNCE_DAMPING,
      GRAVITY_CONFIG.GROUND_FRICTION, GRAVITY_CONFIG.FLOOR_OFFSET, wrapCoord]
  all_goals
    norm_num [CONFIG.MAX_VELOCITY, CHAOS_CONFIG.MAX_VELOCITY,
      WEATHER_CONFIG.MAX_VELOCITY, SWARM_CONFIG.MAX_VELOCITY]

/-! Claim C10: a single fluid particle receives no interaction force. -/

/-- The claim's description of a force-free fluid tick: velocity multiplied by
`FRICTION`, then the shared Integrator step (clamp and Euler update), then the
wrap boundary correction. -/
def fluidNoInteraction (O : MathOracle) (w h : ℚ) (p : Particle) :
    Option (ℚ × ℚ × ℚ × ℚ) := do
  let (x1, y1, vx1, vy1) ← integratorPhase CONFIG.MAX_VELOCITY O p.x p.y
    (p.vx * CONFIG.FRICTION) (p.vy * CONFIG.FRICTION)
  some (wrapCoord w x1, wrapCoord h y1, vx1, vy1)

/-- Claim C10: with exactly one particle in fluid mode, every sampled neighbor
index equals the particle's own index and is skipped, so the tick applies no
interaction force: the velocity change is exactly multiplication by `FRICTION`
followed by the clamp, and the position change is exactly one explicit-Euler
step plus the wrap boundary correction. -/
theorem single_particle_fluid_no_force (O : MathOracle) (rng : ℕ → ℚ)
    (w h : ℚ) (p : Particle) (hr : ∀ j, 0 ≤ rng j ∧ rng j < 1) :
    fluidKin O rng w h [p] 0 p = fluidNoInteraction O w h p := by
  have hidx : ∀ j, (Int.floor (rng j * (([p] : List Particle).length : ℚ))).toNat = 0 := by
    intro j
    have hfloor : Int.floor (rng j * (([p] : List Particle).length : ℚ)) = 0 := by
      simp only [List.length_singleton, Nat.cast_one, mul_one]
      exact Int.floor_eq_zero_iff.mpr ⟨(hr j).1, (hr j).2⟩
    rw [hfloor]
    rfl
  have hsample : fluidSample O rng [p] 0 p = some (0, 0) := by
    simp only [fluidSample, CONFIG.NEIGHBORS_TO_CHECK,
      show List.range 5 = [0, 1, 2, 3, 4] from rfl,
      List.foldlM_cons, List.foldlM_nil, hidx]
    simp
  simp only [fluidKin, hsample, Option.some_bind, fluidNoInteraction]
  simp [CONFIG.BOUNDARY_MODE]

/-- A lone particle for the single-particle fluid scenario. -/
def pSolo : Particle := ⟨'z', 122, 20, 30, 1, 2, 0, 3/4, 0⟩

/-- Witness for `single_particle_fluid_no_force` on a concrete lone particle. -/
theorem single_particle_fluid_no_force_witness :
    fluidKin ⟨fun _ => 1, fun _ => 0, fun _ => 0, fun _ _ => 0⟩ (fun _ => 1/2)
        100 100 [pSolo] 0 pSolo
      = fluidNoInteraction ⟨fun _ => 1, fun _ => 0, fun _ => 0, fun _ _ => 0⟩
          100 100 pSolo :=
  single_particle_fluid_no_force ⟨fun _ => 1, fun _ => 0, fun _ => 0, fun _ _ => 0⟩
    (fun _ => 1/2) 100 100 pSolo (fun _ => ⟨by norm_num, by norm_num⟩)

/-! Claim C8: every division of a tick is guarded; no division by zero. -/

lemma isSome_bind_of {α β : Type} (o : Option α) (k : α → Option β)
    (h1 : o.isSome) (h2 : ∀ a, (k a).isSome) : (o >>= k).isSome := by
  obtain ⟨a, ha⟩ := Option.isSome_iff_exists.mp h1
  rw [ha]
  simpa using h2 a

lemma clampC_isSome (maxV : ℚ) (O : MathOracle) (vx vy : ℚ)
    (hsqrt : ∀ q, 9 < q → O.sqrtq q ≠ 0) (hmax : 9 ≤ maxV * maxV) :
    (clampC maxV O vx vy).isSome := by
  simp only [clampC]
  by_cases hc : vx * vx + vy * vy > maxV * maxV
  · have hne := hsqrt _ (lt_of_le_of_lt hmax hc)
    simp [hc, checkedDiv_eq _ _ hne]
  · simp [hc]

lemma integratorPhase_isSome (maxV : ℚ) (O : MathOracle) (x y vx vy : ℚ)
    (hsqrt : ∀ q, 9 < q → O.sqrtq q ≠ 0) (hmax : 9 ≤ maxV * maxV) :
    (integratorPhase maxV O x y vx vy).isSome := by
  simp only [integratorPhase]
  exact isSome_bind_of _ _ (clampC_isSome maxV O vx vy hsqrt hmax)
    (fun a => by rcases a with ⟨cvx, cvy⟩; simp)

lemma fluidContrib_isSome (O : MathOracle) (p n : Particle) (hm : p.mass ≠ 0) :
    (fluidContrib O p n).isSome := by
  simp only [fluidContrib]
  by_cases hg : O.sqrtq ((n.x - p.x) * (n.x - p.x) + (n.y - p.y) * (n.y - p.y))
      < CONFIG.INTERACTION_RADIUS
      ∧ O.sqrtq ((n.x - p.x) * (n.x - p.x) + (n.y - p.y) * (n.y - p.y)) > 0
  · have hdne : O.sqrtq ((n.x - p.x) * (n.x - p.x) + (n.y - p.y) * (n.y - p.y)) ≠ 0 :=
      ne_of_gt hg.2
    have hd1 : O.sqrtq ((n.x - p.x) * (n.x - p.x) + (n.y - p.y) * (n.y - p.y)) + 1 ≠ 0 := by
      have := hg.2
      intro h0
      linarith
    have h50 : (50 : ℚ) ≠ 0 := by norm_num
    by_cases habs : |n.code - p.code| < 10 <;>
      simp [hg, habs, checkedDiv_eq _ _ hdne, checkedDiv_eq _ _ hd1,
        checkedDiv_eq _ _ hm, checkedDiv_eq _ _ h50]
  · simp [hg]

lemma fluidSample_isSome (O : MathOracle) (rng : ℕ → ℚ) (arr : List Particle)
    (i : ℕ) (p : Particle) (hr : ∀ j, 0 ≤ rng j ∧ rng j < 1)
    (hlen : 0 < arr.length) (hm : p.mass ≠ 0) :
    (fluidSample O rng arr i p).isSome := by
  simp only [fluidSample]
  refine Option.isSome_iff_exists.mpr (exists_foldlM_option ?_ (0, 0))
  intro acc j hj
  by_cases hii : (Int.floor (rng j * (arr.length : ℚ))).toNat = i
  · exact ⟨acc, by simp [hii]⟩
  · have hlt := sampled_index_lt (rng j) arr.length (hr j).1 (hr j).2 hlen
    have hget : arr[(Int.floor (rng j * (arr.length : ℚ))).toNat]?
        = some (arr.get ⟨(Int.floor (rng j * (arr.length : ℚ))).toNat, hlt⟩) :=
      List.getElem?_eq_getElem hlt
    obtain ⟨cv, hcv⟩ := Option.isSome_iff_exists.mp
      (fluidContrib_isSome O p
        (arr.get ⟨(Int.floor (rng j * (arr.length : ℚ))).toNat, hlt⟩) hm)
    rw [List.get_eq_getElem] at hcv
    exact ⟨(acc.1 + cv.1, acc.2 + cv.2), by simp [hii, hget, hcv]⟩

lemma fluidKin_isSome (O : MathOracle) (rng : ℕ → ℚ) (w h : ℚ)
    (arr : List Particle) (i : ℕ) (p : Particle)
    (hr : ∀ j, 0 ≤ rng j ∧ rng j < 1) (hlen : 0 < arr.length)
    (hsqrt : ∀ q, 9 < q → O.sqrtq q ≠ 0) (hm : p.mass ≠ 0) :
    (fluidKin O rng w h arr i p).isSome := by
  simp only [fluidKin]
  refine isSome_bind_of _ _ (fluidSample_isSome O rng arr i p hr hlen hm) ?_
  rintro ⟨dvx, dvy⟩
  refine isSome_bind_of _ _
    (integratorPhase_isSome CONFIG.MAX_VELOCITY O p.x p.y _ _ hsqrt
      (by norm_num [CONFIG.MAX_VELOCITY])) ?_
  rintro ⟨x2, y2, vx2, vy2⟩
  split <;> simp

lemma gravityKin_isSome (rng : ℕ → ℚ) (w h : ℚ) (p : Particle) :
    (gravityKin rng w h p).isSome := by
  simp only [gravityKin]
  split_ifs <;> simp

lemma chaosKin_isSome (O : MathOracle) (rng : ℕ → ℚ) (w h : ℚ) (p : Particle)
    (hsqrt : ∀ q, 9 < q → O.sqrtq q ≠ 0) :
    (chaosKin O rng w h p).isSome := by
  have h2 : (2 : ℚ) ≠ 0 := by norm_num
  have h100 : (100 : ℚ) ≠ 0 := by norm_num
  simp only [chaosKin]
  refine isSome_bind_of _ _ (by simp [checkedDiv_eq _ _ h2]) ?_
  intro centerX
  refine isSome_bind_of _ _ (by simp [checkedDiv_eq _ _ h2]) ?_
  intro centerY
  by_cases hcd : O.sqrtq ((centerX - p.x) * (centerX - p.x)
      + (centerY - p.y) * (centerY - p.y)) > 0
  · rw [if_pos hcd]
    refine isSome_bind_of _ _ (by simp [checkedDiv_eq _ _ h100]) ?_
    intro distScaled
    refine isSome_bind_of _ _ (by simp [checkedDiv_eq _ _ (ne_of_gt hcd)]) ?_
    intro ux
    refine isSome_bind_of _ _ (by simp [checkedDiv_eq _ _ (ne_of_gt hcd)]) ?_
    intro uy
    refine isSome_bind_of _ _ (by simp) ?_
    intro vC
    refine isSome_bind_of _ _
      (integratorPhase_isSome CHAOS_CONFIG.MAX_VELOCITY O p.x p.y _ _ hsqrt
        (by norm_num [CHAOS_CONFIG.MAX_VELOCITY])) ?_
    rintro ⟨x1, y1, vx1, vy1⟩
    simp
  · rw [if_neg hcd]
    refine isSome_bind_of _ _ (by simp) ?_
    intro vC
    refine isSome_bind_of _ _
      (integratorPhase_isSome CHAOS_CONFIG.MAX_VELOCITY O p.x p.y _ _ hsqrt
        (by norm_num [CHAOS_CONFIG.MAX_VELOCITY])) ?_
    rintro ⟨x1, y1, vx1, vy1⟩
    simp

lemma weatherKin_isSome (O : MathOracle) (w h t : ℚ) (vs : List Vortex)
    (p : Particle) (hsqrt : ∀ q, 9 < q → O.sqrtq q ≠ 0) :
    (weatherKin O w h t vs p).isSome := by
  have h150 : WEATHER_CONFIG.VORTEX_RADIUS ≠ 0 := by
    norm_num [WEATHER_CONFIG.VORTEX_RADIUS]
  have h5000 : (5000 : ℚ) ≠ 0 := by norm_num
  simp only [weatherKin]
  refine isSome_bind_of _ _ ?_ ?_
  · refine Option.isSome_iff_exists.mpr (exists_foldlM_option ?_ (p.vx, p.vy))
    intro acc v hv
    refine Option.isSome_iff_exists.mp ?_
    by_cases hg : O.sqrtq ((p.x - v.x) * (p.x - v.x) + (p.y - v.y) * (p.y - v.y))
        < WEATHER_CONFIG.VORTEX_RADIUS
        ∧ O.sqrtq ((p.x - v.x) * (p.x - v.x) + (p.y - v.y) * (p.y - v.y)) > 1
    · rw [if_pos hg]
      exact isSome_bind_of _ _ (by simp [checkedDiv_eq _ _ h150]) (fun a => by simp)
    · rw [if_neg hg]
      simp
  · rintro ⟨vxV, vyV⟩
    refine isSome_bind_of _ _ (by simp [checkedDiv_eq _ _ h5000]) ?_
    intro windAngle
    refine isSome_bind_of _ _
      (integratorPhase_isSome WEATHER_CONFIG.MAX_VELOCITY O p.x p.y _ _ hsqrt
        (by norm_num [WEATHER_CONFIG.MAX_VELOCITY])) ?_
    rintro ⟨x1, y1, vx1, vy1⟩
    simp

lemma swarmKin_isSome (O : MathOracle) (rng : ℕ → ℚ) (w h : ℚ)
    (arr : List Particle) (i : ℕ) (p : Particle)
    (hr : ∀ j, 0 ≤ rng j ∧ rng j < 1) (hlen : 0 < arr.length)
    (hsqrt : ∀ q, 9 < q → O.sqrtq q ≠ 0) :
    (swarmKin O rng w h arr i p).isSome := by
  simp only [swarmKin]
  refine isSome_bind_of _ _ ?_ ?_
  · refine Option.isSome_iff_exists.mpr
      (exists_foldlM_option ?_ ⟨0, 0, 0, 0, 0, 0, 0, 0, 0⟩)
    intro a j hj
    refine Option.isSome_iff_exists.mp ?_
    by_cases hii : (Int.floor (rng j * (arr.length : ℚ))).toNat = i
    · simp [hii]
    · rw [if_neg hii]
      have hlt := sampled_index_lt (rng j) arr.length (hr j).1 (hr j).2 hlen
      have hget : arr[(Int.floor (rng j * (arr.length : ℚ))).toNat]?
          = some (arr.get ⟨(Int.floor (rng j * (arr.length : ℚ))).toNat, hlt⟩) :=
        List.getElem?_eq_getElem hlt
      refine isSome_bind_of _ _ (by simp [hget]) ?_
      intro n
      by_cases hsep : O.sqrtq ((n.x - p.x) * (n.x - p.x) + (n.y - p.y) * (n.y - p.y))
          < SWARM_CONFIG.SEPARATION_RADIUS
          ∧ O.sqrtq ((n.x - p.x) * (n.x - p.x) + (n.y - p.y) * (n.y - p.y)) > 0
      · rw [if_pos hsep]
        refine isSome_bind_of _ _
          (by simp [checkedDiv_eq _ _ (ne_of_gt hsep.2)]) ?_
        intro ux
        refine isSome_bind_of _ _
          (by simp [checkedDiv_eq _ _ (ne_of_gt hsep.2)]) ?_
        intro uy
        simp
      · rw [if_neg hsep]
        simp
  · intro acc
    have hint : ∀ a b : ℚ,
        (integratorPhase SWARM_CONFIG.MAX_VELOCITY O p.x p.y a b).isSome :=
      fun a b => integratorPhase_isSome _ O p.x p.y a b hsqrt
        (by norm_num [SWARM_CONFIG.MAX_VELOCITY])
    by_cases hs : acc.separationCount > 0
    · rw [if_pos hs]
      refine isSome_bind_of _ _ (by simp [checkedDiv_eq _ _ (ne_of_gt hs)]) ?_
      intro sx
      refine isSome_bind_of _ _ (by simp [checkedDiv_eq _ _ (ne_of_gt hs)]) ?_
      intro sy
      refine isSome_bind_of _ _ (by simp) ?_
      intro v1
      by_cases ha : acc.alignmentCount > 0
      · rw [if_pos ha]
        refine isSome_bind_of _ _ (by simp [checkedDiv_eq _ _ (ne_of_gt ha)]) ?_
        intro ax
        refine isSome_bind_of _ _ (by simp [checkedDiv_eq _ _ (ne_of_gt ha)]) ?_
        intro ay
        refine isSome_bind_of _ _ (by simp) ?_
        intro v2
        by_cases hc : acc.cohesionCount > 0
        · rw [if_pos hc]
          refine isSome_bind_of _ _ (by simp [checkedDiv_eq _ _ (ne_of_gt hc)]) ?_
          intro cx
          refine isSome_bind_of _ _ (by simp [checkedDiv_eq _ _ (ne_of_gt hc)]) ?_
          intro cy
          refine isSome_bind_of _ _ (by simp) ?_
          intro v3
          refine isSome_bind_of _ _ (hint _ _) ?_
          rintro ⟨x1, y1, vx1, vy1⟩
          simp
        · rw [if_neg hc]
          refine isSome_bind_of _ _ (by simp) ?_
          intro v3
          refine isSome_bind_of _ _ (hint _ _) ?_
          rintro ⟨x1, y1, vx1, vy1⟩
          simp
      · rw [if_neg ha]
        refine isSome_bind_of _ _ (by simp) ?_
        intro v2
        by_cases hc : acc.cohesionCount > 0
        · rw [if_pos hc]
          refine isSome_bind_of _ _ (by simp [checkedDiv_eq _ _ (ne_of_gt hc)]) ?_
          intro cx
          refine isSome_bind_of _ _ (by simp [checkedDiv_eq _ _ (ne_of_gt hc)]) ?_
          intro cy
          refine isSome_bind_of _ _ (by simp) ?_
          intro v3
          refine isSome_bind_of _ _ (hint _ _) ?_
          rintro ⟨x1, y1, vx1, vy1⟩
          simp
        · rw [if_neg hc]
          refine isSome_bind_of _ _ (by simp) ?_
          intro v3
          refine isSome_bind_of _ _ (hint _ _) ?_
          rintro ⟨x1, y1, vx1, vy1⟩
          simp
    · rw [if_neg hs]
      refine isSome_bind_of _ _ (by simp) ?_
      intro v1
      by_cases ha : acc.alignmentCount > 0
      · rw [if_pos ha]
        refine isSome_bind_of _ _ (by simp [checkedDiv_eq _ _ (ne_of_gt ha)]) ?_
        intro ax
        refine isSome_bind_of _ _ (by simp [checkedDiv_eq _ _ (ne_of_gt ha)]) ?_
        intro ay
        refine isSome_bind_of _ _ (by simp) ?_
        intro v2
        by_cases hc : acc.cohesionCount > 0
        · rw [if_pos hc]
          refine isSome_bind_of _ _ (by simp [checkedDiv_eq _ _ (ne_of_gt hc)]) ?_
          intro cx
          refine isSome_bind_of _ _ (by simp [checkedDiv_eq _ _ (ne_of_gt hc)]) ?_
          intro cy
          refine isSome_bind_of _ _ (by simp) ?_
          intro v3
          refine isSome_bind_of _ _ (hint _ _) ?_
          rintro ⟨x1, y1, vx1, vy1⟩
          simp
        · rw [if_neg hc]
          refine isSome_bind_of _ _ (by simp) ?_
          intro v3
          refine isSome_bind_of _ _ (hint _ _) ?_
          rintro ⟨x1, y1, vx1, vy1⟩
          simp
      · rw [if_neg ha]
        refine isSome_bind_of _ _ (by simp) ?_
        intro v2
        by_cases hc : acc.cohesionCount > 0
        · rw [if_pos hc]
          refine isSome_bind_of _ _ (by simp [checkedDiv_eq _ _ (ne_of_gt hc)]) ?_
          intro cx
          refine isSome_bind_of _ _ (by simp [checkedDiv_eq _ _ (ne_of_gt hc)]) ?_
          intro cy
          refine isSome_bind_of _ _ (by simp) ?_
          intro v3
          refine isSome_bind_of _ _ (hint _ _) ?_
          rintro ⟨x1, y1, vx1, vy1⟩
          simp
        · rw [if_neg hc]
          refine isSome_bind_of _ _ (by simp) ?_
          intro v3
          refine isSome_bind_of _ _ (hint _ _) ?_
          rintro ⟨x1, y1, vx1, vy1⟩
          simp

/-- Claim C8: for every mode, every tick, and every valid particle (mass
nonzero, as produced by the factory) in a nonempty population, the per-particle
tick body performs no division by zero — it returns a value instead of the
failure every unguarded division would produce. The square-root oracle is only
assumed to be nonzero on inputs above the smallest clamp threshold `9 = 3²`,
which is exactly what the `speedSq > MAX_VELOCITY²` guards provide. -/
theorem tick_no_div_by_zero (m : SimulationMode) (O : MathOracle)
    (rng : ℕ → ℚ) (w h t : ℚ) (arr : List Particle) (vs : List Vortex)
    (i : ℕ) (p : Particle)
    (hi : i < arr.length)
    (hr : ∀ j, 0 ≤ rng j ∧ rng j < 1)
    (hsqrt : ∀ q, 9 < q → O.sqrtq q ≠ 0)
    (hm : p.mass ≠ 0) :
    (modeStep m O rng w h t arr vs i p).isSome := by
  have hlen : 0 < arr.length := Nat.lt_of_le_of_lt (Nat.zero_le i) hi
  cases m with
  | fluid =>
      simpa [modeStep] using fluidKin_isSome O rng w h arr i p hr hlen hsqrt hm
  | gravity =>
      simpa [modeStep] using gravityKin_isSome rng w h p
  | chaos =>
      simpa [modeStep] using chaosKin_isSome O rng w h p hsqrt
  | weather =>
      simpa [modeStep] using
        weatherKin_isSome O w h t (vs.map (vortexStep w h)) p hsqrt
  | swarm =>
      simpa [modeStep] using swarmKin_isSome O rng w h arr i p hr hlen hsqrt

/-- Witness for `tick_no_div_by_zero`: a concrete fluid-mode step succeeds. -/
theorem tick_no_div_by_zero_witness :
    (modeStep SimulationMode.fluid ⟨fun _ => 1, fun _ => 0, fun _ => 0, fun _ _ => 0⟩
        (fun _ => 1/2) 100 100 0 [⟨'A', 65, 10, 10, 0, 0, 0, 3/4, 0⟩] []
        0 ⟨'A', 65, 10, 10, 0, 0, 0, 3/4, 0⟩).isSome :=
  tick_no_div_by_zero SimulationMode.fluid
    ⟨fun _ => 1, fun _ => 0, fun _ => 0, fun _ _ => 0⟩ (fun _ => 1/2)
    100 100 0 [⟨'A', 65, 10, 10, 0, 0, 0, 3/4, 0⟩] [] 0
    ⟨'A', 65, 10, 10, 0, 0, 0, 3/4, 0⟩ (by norm_num)
    (fun _ => ⟨by norm_num, by norm_num⟩) (fun q _ => by norm_num) (by norm_num)

/-! Claim C9: a tick mutates only kinematic fields and never the particle
count. -/

lemma tickAux_length (m : SimulationMode) (O : MathOracle) (rng2 : ℕ → ℕ → ℚ)
    (w h t : ℚ) :
    ∀ (k i : ℕ) (S S' : EngineState),
      tickAux m O rng2 w h t k i S = some S' →
      S'.particles.length = S.particles.length := by
  intro k
  induction k with
  | zero =>
      intro i S S' hr
      simp only [tickAux, Option.some.injEq] at hr
      rw [← hr]
  | succ k ih =>
      intro i S S' hr
      simp only [tickAux, Option.bind_eq_bind, Option.bind_eq_some] at hr
      obtain ⟨p, hp, hr⟩ := hr
      obtain ⟨r, hstep, hr⟩ := hr
      have hlen := ih (i + 1) ⟨S.particles.set i r.1, r.2⟩ S' hr
      simpa [List.length_set] using hlen

/-- Claim C9: for every mode, the per-particle tick body changes only the
kinematic fields — `ch`, `code`, `norm`, `mass` and `hue` are unchanged, so
`norm` stays in `[0, 1]` and `mass` stays in `[0.5, 1]` whenever they started
there — and a full tick never changes the length of the particle sequence. -/
theorem tick_preserves_identity_and_count :
    (∀ (m : SimulationMode) (O : MathOracle) (rng : ℕ → ℚ) (w h t : ℚ)
        (arr : List Particle) (vs : List Vortex) (i : ℕ) (p q : Particle)
        (vs1 : List Vortex),
        modeStep m O rng w h t arr vs i p = some (q, vs1) →
        q.ch = p.ch ∧ q.code = p.code ∧ q.norm = p.norm ∧ q.mass = p.mass
          ∧ q.hue = p.hue
          ∧ (0 ≤ p.norm → p.norm ≤ 1 → 0 ≤ q.norm ∧ q.norm ≤ 1)
          ∧ (1/2 ≤ p.mass → p.mass ≤ 1 → 1/2 ≤ q.mass ∧ q.mass ≤ 1))
    ∧ (∀ (m : SimulationMode) (O : MathOracle) (rng2 : ℕ → ℕ → ℚ) (w h t : ℚ)
        (S S' : EngineState),
        simTick m O rng2 w h t S = some S' →
        S'.particles.length = S.particles.length) := by
  constructor
  · intro m O rng w h t arr vs i p q vs1 hstep
    have hq : ∃ k, q = applyKin p k := by
      cases m <;> simp only [modeStep, Option.map_eq_some'] at hstep <;>
        obtain ⟨k, hk1, hk2⟩ := hstep <;>
        exact ⟨k, ((Prod.mk.injEq _ _ _ _).mp hk2).1.symm⟩
    obtain ⟨k, hk⟩ := hq
    subst hk
    exact ⟨rfl, rfl, rfl, rfl, rfl, fun h1 h2 => ⟨h1, h2⟩, fun h1 h2 => ⟨h1, h2⟩⟩
  · intro m O rng2 w h t S S' hx
    exact tickAux_length m O rng2 w h t S.particles.length 0 S S' hx

/-- A concrete particle for the identity-preservation witness. -/
def pIdW : Particle := ⟨'A', 65, 50, 0, 0, 0, 0, 3/4, 0⟩

/-- The same particle after one gravity tick on a 100×10000 surface. -/
def qIdW : Particle := ⟨'A', 65, 50, 1791/8000, 0, 1791/8000, 0, 3/4, 0⟩

/-- A constant oracle used by the concrete-evaluation witnesses. -/
def OIdW : MathOracle := ⟨fun _ => 1000, fun _ => 0, fun _ => 0, fun _ _ => 0⟩

/-- Witness for `tick_preserves_identity_and_count`: one concrete gravity
step and one concrete one-particle gravity tick. -/
theorem tick_preserves_identity_and_count_witness :
    (qIdW.ch = pIdW.ch ∧ qIdW.code = pIdW.code ∧ qIdW.norm = pIdW.norm
      ∧ qIdW.mass = pIdW.mass ∧ qIdW.hue = pIdW.hue
      ∧ (0 ≤ pIdW.norm → pIdW.norm ≤ 1 → 0 ≤ qIdW.norm ∧ qIdW.norm ≤ 1)
      ∧ (1/2 ≤ pIdW.mass → pIdW.mass ≤ 1 → 1/2 ≤ qIdW.mass ∧ qIdW.mass ≤ 1))
    ∧ (EngineState.mk [qIdW] []).particles.length
        = (EngineState.mk [pIdW] []).particles.length := by
  have hstep : modeStep SimulationMode.gravity OIdW (fun _ => 1/2) 100 10000 0
      [pIdW] [] 0 pIdW = some (qIdW, []) := by
    norm_num [modeStep, gravityKin, applyKin, pIdW, qIdW, OIdW, dt, wrapCoord,
      GRAVITY_CONFIG.GRAVITY, GRAVITY_CONFIG.AIR_RESISTANCE,
      GRAVITY_CONFIG.BOUNCE_DAMPING, GRAVITY_CONFIG.GROUND_FRICTION,
      GRAVITY_CONFIG.FLOOR_OFFSET]
  have htick : simTick SimulationMode.gravity OIdW (fun _ _ => 1/2) 100 10000 0
      ⟨[pIdW], []⟩ = some ⟨[qIdW], []⟩ := by
    norm_num [simTick, tickAux, modeStep, gravityKin, applyKin, pIdW, qIdW, OIdW,
      dt, wrapCoord, GRAVITY_CONFIG.GRAVITY, GRAVITY_CONFIG.AIR_RESISTANCE,
      GRAVITY_CONFIG.BOUNCE_DAMPING, GRAVITY_CONFIG.GROUND_FRICTION,
      GRAVITY_CONFIG.FLOOR_OFFSET]
  exact ⟨tick_preserves_identity_and_count.1 SimulationMode.gravity OIdW
      (fun _ => 1/2) 100 10000 0 [pIdW] [] 0 pIdW qIdW [] hstep,
    tick_preserves_identity_and_count.2 SimulationMode.gravity OIdW
      (fun _ _ => 1/2) 100 10000 0 ⟨[pIdW], []⟩ ⟨[qIdW], []⟩ htick⟩

/-! Claim C2: weather vortices are advanced inside the per-particle loop. -/

/-- A vortex with unit horizontal velocity. -/
def vWBug : Vortex := ⟨10, 10, 1, 0, 0.08, 1⟩

/-- Two particles at rest, far from the vortex under the constant oracle. -/
def qWBug1 : Particle := ⟨'A', 65, 50, 50, 0, 0, 0, 3/4, 0⟩

/-- Second particle at rest for the weather scenario. -/
def qWBug2 : Particle := ⟨'B', 66, 60, 60, 0, 0, 0, 3/4, 0⟩

/-- Claim C2 evaluated on the code: the vortex update loop sits inside the
per-particle loop (source lines 197, 292-305), so in weather mode a tick with
zero particles leaves every vortex exactly where it was — the vortex at
`(10, 10)` with velocity `(1, 0)` does not advance — while the same tick with
two particles advances the same vortex twice (to `x = 12`), contradicting
`advanced by its own velocity exactly once ... independently of the particle
count`. -/
theorem weather_vortices_follow_particle_loop :
    simTick SimulationMode.weather OIdW (fun _ _ => 1/2) 100 100 0 ⟨[], [vWBug]⟩
        = some ⟨[], [vWBug]⟩
      ∧ vWBug.vx = 1
      ∧ simTick SimulationMode.weather OIdW (fun _ _ => 1/2) 100 100 0
          ⟨[qWBug1, qWBug2], [vWBug]⟩
        = some ⟨[qWBug1, qWBug2], [⟨12, 10, 1, 0, 0.08, 1⟩]⟩ := by
  refine ⟨rfl, rfl, ?_⟩
  norm_num [simTick, tickAux, modeStep, weatherKin, vortexStep, applyKin,
    wrapCoord, integratorPhase, clampC, checkedDiv, qWBug1, qWBug2, vWBug, OIdW,
    dt, WEATHER_CONFIG.VORTEX_RADIUS, WEATHER_CONFIG.WIND_STRENGTH,
    WEATHER_CONFIG.FRICTION, WEATHER_CONFIG.MAX_VELOCITY,
    List.foldlM_cons, List.foldlM_nil]

end Charflux
